import Mathlib

/-!
Verification of the aristarchus stylistic-report engine.

The definitions below are a shallow embedding of the Python sources
(`aristarchus/main.py`, `metrics.py`, `text_analysis.py`, `word_processing.py`,
`types.py`).  Tokens, sentences and documents mirror the annotated stream the
external NLP pipeline hands to the core; Python floats are modelled by exact
rationals, with the square root used by `statistics.pstdev` abstracted as an
explicit parameter (the guard structure of the source is kept verbatim).
The static exclusion sets are copied from `main.py` (the `aristarchus.constants`
module imported by `word_processing.py` holds the same literals, which
`main.py` also inlines).
-/

/-- A spaCy token as consumed by the core: surface text, lemma, coarse tag
(`pos_`), fine tag (`tag_`), dependency label (`dep_`) and the three boolean
flags.  The core never mutates a token. -/
structure Token where
  text : String
  lemma_ : String
  pos : String
  tag : String
  dep : String
  is_punct : Bool
  is_space : Bool
  is_alpha : Bool

/-- A sentence: its ordered tokens plus the raw text exposed by `sent.text`. -/
structure Sentence where
  tokens : List Token
  text : String

/-- A document (one paragraph): its sentences plus the raw text `doc.text`. -/
structure Doc where
  sents : List Sentence
  text : String

/-- Iterating a spaCy `Doc` yields every token of every sentence in order. -/
def Doc.tokens (d : Doc) : List Token :=
  d.sents.flatMap Sentence.tokens

/-- The two languages of `LANGUAGES_SUPPORTED` in `types.py`. -/
inductive LanguageSupported where
  | pt
  | en
deriving DecidableEq

/-- `MIN_COUNT_NOUNS_N_VERBS` from `main.py`. -/
def MIN_COUNT_NOUNS_N_VERBS : Nat := 3

/-- `MIN_COUNT_ADVS_N_ADJS` from `main.py`. -/
def MIN_COUNT_ADVS_N_ADJS : Nat := 1

/-- `EXCLUDED_TAGS` from `main.py`. -/
def EXCLUDED_TAGS : List String := ["DET"]

/-- `PORTUGUESE_EXCLUDED_ADV_ADJ` from `main.py`. -/
def PORTUGUESE_EXCLUDED_ADV_ADJ : List String :=
  ["algum", "alguma", "algumas", "alguns", "anterior", "aquela", "aquelas",
   "aquele", "aqueles", "essa", "essas", "esse", "esses", "esta", "estas",
   "este", "estes", "meu", "meus", "minha", "minhas", "muita", "muitas",
   "muito", "muitos", "nenhum", "nenhuma", "nenhumas", "nenhuns", "nossa",
   "nossas", "nosso", "nossos", "outra", "outras", "outro", "outros", "pouca",
   "poucas", "pouco", "poucos", "primeiro", "próximo", "quaisquer", "qualquer",
   "segunda", "seu", "seus", "sua", "suas", "tanta", "tantas", "tanto",
   "tantos", "terceiro", "teu", "teus", "toda", "todas", "todo", "todos",
   "tua", "tuas", "último", "vossa", "vossas", "vosso", "vossos"]

/-- `ENGLISH_EXCLUDED_ADV_ADJ` from `main.py`. -/
def ENGLISH_EXCLUDED_ADV_ADJ : List String :=
  ["a", "all", "an", "another", "any", "both", "different", "double", "each",
   "either", "enough", "every", "few", "first", "her", "his", "its", "last",
   "least", "less", "little", "many", "more", "most", "much", "my", "neither",
   "next", "one", "other", "our", "previous", "same", "second", "several",
   "single", "some", "such", "that", "the", "their", "these", "third", "this",
   "those", "three", "triple", "two", "your"]

/-- `EXCLUDED_MENTE_ADVERBS` from `main.py`. -/
def EXCLUDED_MENTE_ADVERBS : List String := ["somente"]

/-- `EXCLUDED_LY_ADVERBS` from `main.py`. -/
def EXCLUDED_LY_ADVERBS : List String :=
  ["absolutely", "actually", "basically", "certainly", "completely",
   "currently", "definitely", "early", "entirely", "exactly", "finally",
   "formerly", "fully", "generally", "gradually", "immediately", "initially",
   "likely", "normally", "only", "originally", "perfectly", "possibly",
   "previously", "probably", "quickly", "really", "recently", "simply",
   "slowly", "suddenly", "totally", "typically", "usually"]

/-- Python's `str.lower`: lowercase every character of the string. -/
def py_lower (s : String) : String :=
  String.mk (s.data.map Char.toLower)

/-- Python's `str.endswith`: the candidate is a suffix of the string. -/
def py_endswith (s suf : String) : Bool :=
  decide (suf.data <:+ s.data)

/-- `is_adverb_of_manner` from `word_processing.py` (identical to
`_is_adverb_of_manner` in `main.py`): ADV tokens whose lowercased surface form
ends in "mente" (checked first) or "ly", with a per-suffix lemma exclusion. -/
def is_adverb_of_manner (t : Token) : Bool :=
  if t.pos ≠ "ADV" then false
  else if py_endswith (py_lower t.text) "mente" then
    decide (py_lower t.lemma_ ∉ EXCLUDED_MENTE_ADVERBS)
  else if py_endswith (py_lower t.text) "ly" then
    decide (py_lower t.lemma_ ∉ EXCLUDED_LY_ADVERBS)
  else false

/-- `is_adjective_of_quality` from `word_processing.py` (identical to
`_is_adjective_of_quality` in `main.py`): ADJ tokens whose fine tag is not
excluded and whose lowercased lemma lies in neither language's exclusion set
(the source always takes the union of the two sets). -/
def is_adjective_of_quality (t : Token) : Bool :=
  if t.pos ≠ "ADJ" then false
  else
    decide (t.tag ∉ EXCLUDED_TAGS) &&
      decide (py_lower t.lemma_ ∉ PORTUGUESE_EXCLUDED_ADV_ADJ ++ ENGLISH_EXCLUDED_ADV_ADJ)

/-- The content-word test `token.pos_ in ["NOUN", "VERB"]` used by
`analyze_word_classes` and by the content-word aggregation pass. -/
def is_content_word (t : Token) : Bool :=
  t.pos == "NOUN" || t.pos == "VERB"

/-- Manner-adverb classification as observed in a run configured with the
given language.  `edit_fiction` consults its `language` argument only to pick
the external spaCy model; no language value reaches `is_adverb_of_manner`,
so the classifier applied to the annotated stream is the same function for
both configurations. -/
def is_adverb_of_manner_lang (_lang : LanguageSupported) (t : Token) : Bool :=
  is_adverb_of_manner t

/-- Quality-adjective classification as observed in a run configured with the
given language; as with `is_adverb_of_manner_lang`, the source passes no
language to `is_adjective_of_quality`. -/
def is_adjective_of_quality_lang (_lang : LanguageSupported) (t : Token) : Bool :=
  is_adjective_of_quality t

/-- `detect_passive_voice` from `text_analysis.py`: some token of the sentence
carries the dependency label "nsubjpass". -/
def detect_passive_voice (tokens : List Token) : Bool :=
  tokens.any (fun t => t.dep == "nsubjpass")

/-- `extract_sentence_opening` from `text_analysis.py`: the lowercased lemma
bigram of the first two tokens, the single lemma when only one token exists,
and "" for an empty sentence. -/
def extract_sentence_opening (tokens : List Token) : String :=
  match tokens with
  | t0 :: t1 :: _ => py_lower (t0.lemma_ ++ " " ++ t1.lemma_)
  | [t0] => py_lower t0.lemma_
  | [] => ""

/-- The punctuation/space filter applied to each sentence by
`analyze_sentences`: `[t for t in sent if not t.is_punct and not t.is_space]`. -/
def content_tokens (s : Sentence) : List Token :=
  s.tokens.filter (fun t => !t.is_punct && !t.is_space)

/-- One increment of a Python `Counter`: bump an existing key, or append a new
key with count 1 (Counter iteration preserves first-insertion order). -/
def counter_incr (c : List (String × Nat)) (k : String) : List (String × Nat) :=
  if c.any (fun p => p.1 == k) then
    c.map (fun p => if p.1 == k then (p.1, p.2 + 1) else p)
  else c ++ [(k, 1)]

/-- The accumulator threaded through the sentence loop of `analyze_sentences`:
the five values returned by the Python function. -/
structure SentAnalysis where
  sentence_lengths : List Nat
  openings : List (String × Nat)
  total_tokens : Nat
  unique_lemmas : Finset String
  passive_sentence_texts : List String

/-- The body of the `for sent in doc.sents` loop of `analyze_sentences`. -/
def analyze_step (st : SentAnalysis) (sent : Sentence) : SentAnalysis :=
  let tokens := content_tokens sent
  let opening := extract_sentence_opening tokens
  { sentence_lengths := st.sentence_lengths ++ [tokens.length]
    total_tokens := st.total_tokens + tokens.length
    unique_lemmas :=
      (((tokens.filter (fun t => t.is_alpha)).map
          (fun t => py_lower t.lemma_)).foldl (fun s x => insert x s) st.unique_lemmas)
    passive_sentence_texts :=
      if detect_passive_voice tokens then
        st.passive_sentence_texts ++ [sent.text.trim]
      else st.passive_sentence_texts
    openings := if opening ≠ "" then counter_incr st.openings opening else st.openings }

/-- `analyze_sentences` from `text_analysis.py` (identical to
`_analyze_sentences` in `main.py`): a single pass over every sentence of every
document. -/
def analyze_sentences (documents : List Doc) : SentAnalysis :=
  (documents.flatMap Doc.sents).foldl analyze_step
    { sentence_lengths := []
      openings := []
      total_tokens := 0
      unique_lemmas := ∅
      passive_sentence_texts := [] }

/-- `analyze_word_classes` from `word_processing.py` (identical to
`_analyze_word_classes` in `main.py`): count nouns+verbs and the descriptors
(manner adverbs and quality adjectives) over every token of every document. -/
def analyze_word_classes (documents : List Doc) : Nat × Nat :=
  (documents.flatMap Doc.tokens).foldl
    (fun acc t =>
      if is_content_word t then (acc.1 + 1, acc.2)
      else if is_adverb_of_manner t || is_adjective_of_quality t then
        (acc.1, acc.2 + 1)
      else acc)
    (0, 0)

/-- `statistics.mean` on a list of sentence lengths, in exact rationals. -/
def meanQ (l : List Nat) : ℚ :=
  (l.map (fun n => (n : ℚ))).sum / (l.length : ℚ)

/-- The population variance underlying `statistics.pstdev`. -/
def pvarianceQ (l : List Nat) : ℚ :=
  ((l.map (fun n => ((n : ℚ) - meanQ l) ^ 2)).sum) / (l.length : ℚ)

/-- A Python float as it occurs in the ratio computation: a finite value or
`float("inf")`. -/
inductive RatioValue where
  | fin (q : ℚ)
  | posInf
deriving DecidableEq

/-- The ratio computation of `compute_stylistic_metrics` (both copies):
`nouns_verbs_count / adjs_advs_count` when the descriptor count is positive,
`float("inf")` when it is zero and the content count is positive, and `0`
when both counts are zero. -/
def ratio_nv_to_aa (nouns_verbs_count adjs_advs_count : Nat) : RatioValue :=
  if adjs_advs_count > 0 then
    RatioValue.fin ((nouns_verbs_count : ℚ) / (adjs_advs_count : ℚ))
  else if nouns_verbs_count > 0 then RatioValue.posInf
  else RatioValue.fin 0

/-- `avg_len` in `compute_stylistic_metrics`:
`statistics.mean(sentence_lengths) if sentence_lengths else 0`. -/
def avg_len (documents : List Doc) : ℚ :=
  let lengths := (analyze_sentences documents).sentence_lengths
  if lengths = [] then 0 else meanQ lengths

/-- `var_len` in `compute_stylistic_metrics`:
`statistics.pstdev(sentence_lengths) if len(sentence_lengths) > 1 else 0`.
The float square root inside `pstdev` is abstracted as the parameter `sq`
applied to the exact population variance. -/
def var_len (sq : ℚ → ℚ) (documents : List Doc) : ℚ :=
  let lengths := (analyze_sentences documents).sentence_lengths
  if lengths.length > 1 then sq (pvarianceQ lengths) else 0

/-- `var_len_percentage` in `compute_stylistic_metrics`:
`(var_len / avg_len * 100) if avg_len else 0`. -/
def var_len_percentage (sq : ℚ → ℚ) (documents : List Doc) : ℚ :=
  if avg_len documents ≠ 0 then var_len sq documents / avg_len documents * 100
  else 0

/-- `lexical_div` in `compute_stylistic_metrics`:
`len(unique_lemmas) / total_tokens if total_tokens else 0`. -/
def lexical_div (documents : List Doc) : ℚ :=
  let a := analyze_sentences documents
  if a.total_tokens ≠ 0 then (a.unique_lemmas.card : ℚ) / (a.total_tokens : ℚ)
  else 0

/-- `nv_to_aa_ratio` in `compute_stylistic_metrics`, applied to the counts of
`analyze_word_classes`. -/
def ratio_of (documents : List Doc) : RatioValue :=
  ratio_nv_to_aa (analyze_word_classes documents).1 (analyze_word_classes documents).2

/-- Left-pad a digit string with zeros up to the requested width. -/
def padZeros (s : String) (width : Nat) : String :=
  String.mk (List.replicate (width - s.length) '0') ++ s

/-- Python's fixed-point formatting `f"{x:.prec f}"` for the nonnegative
rational quantities of the report: scale by `10 ^ prec`, round half to even,
and render integer and fractional digits.  Stated over the numerator and
denominator so every step is plain integer arithmetic: with `N = num * 10 ^
prec` and `D = den > 0`, the floor of the scaled value is `N.fdiv D` and the
fractional remainder `N.fmod D` is compared against `D / 2`. -/
def fmtFixed (q : ℚ) (prec : Nat) : String :=
  let N : ℤ := q.num * (10 : ℤ) ^ prec
  let D : ℤ := (q.den : ℤ)
  let fl : ℤ := N.fdiv D
  let r : ℤ := N.fmod D
  let n : ℤ :=
    if 2 * r > D then fl + 1
    else if 2 * r < D then fl
    else if fl % 2 = 0 then fl else fl + 1
  let nn : Nat := n.toNat
  toString (nn / 10 ^ prec) ++ "." ++ padZeros (toString (nn % 10 ^ prec)) prec

/-- Rendering of the ratio value: Python prints `float("inf")` as "inf". -/
def fmtRatioValue (v : RatioValue) : String :=
  match v with
  | RatioValue.fin q => fmtFixed q 2
  | RatioValue.posInf => "inf"

/-- The "Passive voice sentences" section: appended only when the list of
passive sentence texts is non-empty (both copies of the source share this
conditional). -/
def passive_voice_block (texts : List String) : String :=
  if texts = [] then ""
  else
    "Passive voice sentences:\n" ++
      String.join (texts.map (fun s => "    • " ++ s ++ "\n")) ++ "\n"

/-- The entries printed by `format_repeated_openings`: `most_common()` is a
stable sort by descending count (modelled by the stable `insertionSort`),
filtered to counts strictly above 2. -/
def repeated_openings_entries (openings : List (String × Nat)) : List (String × Nat) :=
  (openings.insertionSort (fun a b => b.2 ≤ a.2)).filter (fun p => decide (2 < p.2))

/-- `format_repeated_openings` from `text_analysis.py` (identical to
`_format_repeated_openings` in `main.py`). -/
def format_repeated_openings (openings : List (String × Nat)) : String :=
  "  Repeated sentence openings:\n" ++
    String.join ((repeated_openings_entries openings).map
      (fun p => "    " ++ p.1 ++ ": " ++ toString p.2 ++ "\n")) ++ "\n"

/-- The rows a word-class table keeps: the counter entries whose count is
strictly greater than `min_count` (the `if count > min_count` filter of
`format_word_counts_with_examples`). -/
def tableEntries (counter : List (String × Nat)) (min_count : Nat) : List (String × Nat) :=
  counter.filter (fun p => decide (min_count < p.2))

/-- Rendering of one table row: `  {word}: {count} → {sorted unique examples}`. -/
def wordCountLine (word_examples : String → List String) (p : String × Nat) : String :=
  "  " ++ p.1 ++ ": " ++ toString p.2 ++ " → " ++
    String.intercalate ", " ((word_examples p.1).dedup.insertionSort
      (fun a b => ¬ b < a)) ++ "\n"

/-- `format_word_counts_with_examples` from `word_processing.py` (identical to
`_format_word_counts_with_examples` in `main.py`). -/
def format_word_counts_with_examples (title : String) (counter : List (String × Nat))
    (word_examples : String → List String) (min_count : Nat) : String :=
  title ++ ":\n" ++
    String.join ((tableEntries counter min_count).map (wordCountLine word_examples)) ++ "\n"

/-- The four-line stylistic header of `_compute_stylistic_metrics` in
`main.py` (annotation texts "(10-25)", "(approximate the avg)", "(0.4-0.6)"
and ">3.5"). -/
def stylistic_metrics_block (sq : ℚ → ℚ) (documents : List Doc) : String :=
  "Stylistic Metrics:\n" ++
    "  Avg. sentence length: " ++ fmtFixed (avg_len documents) 2 ++ " (10-25) tokens\n" ++
    "  Sentence length variation: " ++ fmtFixed (var_len sq documents) 2 ++ " (" ++
      fmtFixed (var_len_percentage sq documents) 2 ++ "%) (approximate the avg)\n" ++
    "  Lexical diversity: " ++ fmtFixed (lexical_div documents) 3 ++ " (0.4-0.6)\n" ++
    "  Nouns+Verbs to Adjectives+Adverbs ratio: " ++ fmtRatioValue (ratio_of documents) ++
      " (>3.5 for clear prose)\n\n"

/-- The four-line stylistic header of `compute_stylistic_metrics` in
`metrics.py` (annotation texts "(9-11)", "(7-8)", "(0.2-0.3)" and ">6"). -/
def metrics_stylistic_block (sq : ℚ → ℚ) (documents : List Doc) : String :=
  "Stylistic Metrics:\n" ++
    "  Avg. sentence length: " ++ fmtFixed (avg_len documents) 2 ++ " (9-11) tokens\n" ++
    "  Sentence length variation: " ++ fmtFixed (var_len sq documents) 2 ++ " (" ++
      fmtFixed (var_len_percentage sq documents) 2 ++ "%) (7-8)\n" ++
    "  Lexical diversity: " ++ fmtFixed (lexical_div documents) 3 ++ " (0.2-0.3)\n" ++
    "  Nouns+Verbs to Adjectives+Adverbs ratio: " ++ fmtRatioValue (ratio_of documents) ++
      " (>6 for clear prose)\n\n"

/-- `_compute_readability_metrics` from `metrics.py`.  The six textstat calls
are the external readability collaborator; they are modelled by the `scorer`
oracle, which either returns the list of (name, score, ideal-range) rows or
fails with the exception message caught by the source's `try` block. -/
def compute_readability_metrics (scorer : String → Except String (List (String × ℚ × String)))
    (full_text : String) : String :=
  "Readability Indices (ideal ranges in parentheses):\n" ++
    (match scorer full_text with
     | Except.ok rows =>
        String.join (rows.map (fun row =>
          "  " ++ row.1 ++ ": " ++ fmtFixed row.2.1 2 ++ " — ideal " ++ row.2.2 ++ "\n"))
     | Except.error e => "  [!] Could not compute readability metrics: " ++ e ++ "\n") ++ "\n"

/-- `_compute_stylistic_metrics` from `main.py`: stylistic header, conditional
passive-voice section, then the repeated-openings section (no readability). -/
def main_compute_stylistic_metrics (sq : ℚ → ℚ) (documents : List Doc) : String :=
  stylistic_metrics_block sq documents ++
    passive_voice_block (analyze_sentences documents).passive_sentence_texts ++
    format_repeated_openings (analyze_sentences documents).openings

/-- `compute_stylistic_metrics` from `metrics.py`: stylistic header,
conditional passive-voice section, then the readability section (no
repeated-openings). -/
def compute_stylistic_metrics (sq : ℚ → ℚ)
    (scorer : String → Except String (List (String × ℚ × String)))
    (documents : List Doc) : String :=
  metrics_stylistic_block sq documents ++
    passive_voice_block (analyze_sentences documents).passive_sentence_texts ++
    compute_readability_metrics scorer
      (String.intercalate "\n" (documents.map Doc.text))

/-- The tokens visited by
`_process_tokens_for_docs_n_gramatical_functions_with_examples`: every token
of every document whose coarse tag lies in `gram_funcs`. -/
def gram_func_tokens (documents : List Doc) (gram_funcs : List String) : List Token :=
  (documents.flatMap Doc.tokens).filter (fun t => gram_funcs.contains t.pos)

/-- The lemma stream produced by the content-word aggregation pass. -/
def process_lemmas (documents : List Doc) (gram_funcs : List String) : List String :=
  (gram_func_tokens documents gram_funcs).map (fun t => t.lemma_)

/-- The example dictionary of the content-word aggregation pass: for a lemma,
the lowercased surface forms of its matching tokens in visit order (exactly
what the source's per-lemma appends accumulate). -/
def word_examples_of (documents : List Doc) (gram_funcs : List String)
    (w : String) : List String :=
  ((gram_func_tokens documents gram_funcs).filter (fun t => t.lemma_ == w)).map
    (fun t => py_lower t.text)

/-- The tokens visited by
`_process_manner_adverbs_and_quality_adjectives_with_examples`. -/
def descriptor_tokens (documents : List Doc) : List Token :=
  (documents.flatMap Doc.tokens).filter
    (fun t => is_adverb_of_manner t || is_adjective_of_quality t)

/-- The lemma stream of the descriptor aggregation pass. -/
def descriptor_lemmas (documents : List Doc) : List String :=
  (descriptor_tokens documents).map (fun t => t.lemma_)

/-- The example dictionary of the descriptor aggregation pass. -/
def descriptor_examples (documents : List Doc) (w : String) : List String :=
  ((descriptor_tokens documents).filter (fun t => t.lemma_ == w)).map
    (fun t => py_lower t.text)

/-- `Counter(lemmas)`: fold the lemma stream into per-lemma counts, keys in
first-occurrence order. -/
def counter_of (l : List String) : List (String × Nat) :=
  l.foldl counter_incr []

/-- The report assembled by `edit_fiction` in `main.py` once the external
pipeline has produced the annotated documents: the main stylistic metrics,
the content-word table and the descriptor table. -/
def edit_fiction_report (sq : ℚ → ℚ) (documents : List Doc) : String :=
  main_compute_stylistic_metrics sq documents ++
    format_word_counts_with_examples "Nouns and Verbs"
      (counter_of (process_lemmas documents ["NOUN", "VERB"]))
      (word_examples_of documents ["NOUN", "VERB"])
      MIN_COUNT_NOUNS_N_VERBS ++
    format_word_counts_with_examples "Manner Adverbs and Quality Adjectives"
      (counter_of (descriptor_lemmas documents))
      (descriptor_examples documents)
      MIN_COUNT_ADVS_N_ADJS

/-- Sample annotated token: a Portuguese noun. -/
def tokNounSample : Token :=
  { text := "Casa", lemma_ := "casa", pos := "NOUN", tag := "NOUN", dep := "obj",
    is_punct := false, is_space := false, is_alpha := true }

/-- Sample annotated token: a "-mente" manner adverb. -/
def tokMenteSample : Token :=
  { text := "rapidamente", lemma_ := "rapidamente", pos := "ADV", tag := "ADV",
    dep := "advmod", is_punct := false, is_space := false, is_alpha := true }

/-- Sample single-sentence document containing a noun and a manner adverb. -/
def docNVSample : Doc :=
  { sents := [{ tokens := [tokNounSample, tokMenteSample],
                text := "Casa rapidamente." }],
    text := "Casa rapidamente." }

/-- Sample single-sentence document containing only a noun. -/
def docNounOnlySample : Doc :=
  { sents := [{ tokens := [tokNounSample], text := "Casa." }], text := "Casa." }

/-- No character list ends both in "mente" and in "ly": two suffixes of the
same list are comparable, and neither five-character suffix relation holds
between the two literals. -/
theorem mente_not_ly {l : List Char} (h : "mente".data <:+ l) : ¬ "ly".data <:+ l := by
  intro h2
  rcases List.suffix_or_suffix_of_suffix h h2 with hh | hh
  · exact absurd hh (by decide)
  · exact absurd hh (by decide)

/-- C6: `is_adverb_of_manner` holds exactly when the coarse tag is ADV, the
lowercased surface form ends in "mente" or in "ly", and the lowercased lemma
avoids the exclusion set of the matching suffix; a lemma inside the matching
exclusion set is rejected despite the suffix, and an ADV token with neither
suffix is rejected. -/
theorem c6_manner_adverb_characterisation (t : Token) :
    is_adverb_of_manner t = true ↔
      (t.pos = "ADV" ∧
        (("mente".data <:+ (py_lower t.text).data ∧
            py_lower t.lemma_ ∉ EXCLUDED_MENTE_ADVERBS) ∨
         ("ly".data <:+ (py_lower t.text).data ∧
            py_lower t.lemma_ ∉ EXCLUDED_LY_ADVERBS))) := by
  by_cases hp : t.pos = "ADV"
  · by_cases hm : "mente".data <:+ (py_lower t.text).data
    · have hly := mente_not_ly hm
      simp [is_adverb_of_manner, py_endswith, hp, hm, hly]
    · by_cases hl : "ly".data <:+ (py_lower t.text).data
      · simp [is_adverb_of_manner, py_endswith, hp, hm, hl]
      · simp [is_adverb_of_manner, py_endswith, hp, hm, hl]
  · simp [is_adverb_of_manner, hp]

/-- C7: a content word (coarse tag NOUN or VERB) is classified neither as a
manner adverb (which requires ADV) nor as a quality adjective (which requires
ADJ). -/
theorem c7_content_word_excludes_descriptors (t : Token)
    (h : is_content_word t = true) :
    is_adverb_of_manner t = false ∧ is_adjective_of_quality t = false := by
  have hpos : t.pos = "NOUN" ∨ t.pos = "VERB" := by
    simpa [is_content_word] using h
  constructor
  · rcases hpos with hp | hp <;> simp [is_adverb_of_manner, hp]
  · rcases hpos with hp | hp <;> simp [is_adjective_of_quality, hp]

/-- C7 witness: the sample noun token is a content word and is excluded from
both descriptor classes. -/
theorem c7_content_word_excludes_descriptors_witness :
    is_adverb_of_manner tokNounSample = false ∧
      is_adjective_of_quality tokNounSample = false :=
  c7_content_word_excludes_descriptors tokNounSample (by decide)

/-- C2 counterexample: no token is classified differently between a run
configured with language "pt" and one configured with language "en" — the
claim's existential is false, because the source classifiers receive no
language at all. -/
theorem c2_no_language_dependent_token :
    ¬ ∃ t : Token,
        is_adverb_of_manner_lang LanguageSupported.pt t ≠
            is_adverb_of_manner_lang LanguageSupported.en t ∨
          is_adjective_of_quality_lang LanguageSupported.pt t ≠
            is_adjective_of_quality_lang LanguageSupported.en t := by
  rintro ⟨t, h | h⟩ <;> exact h rfl

/-- C2 (amended): token classification is independent of the configured
language: under any two language configurations both classifiers agree on
every token, since both suffix branches and both exclusion sets are always
applied and the language selector only chooses the external spaCy model. -/
theorem c2_classification_language_independent
    (lang lang' : LanguageSupported) (t : Token) :
    is_adverb_of_manner_lang lang t = is_adverb_of_manner_lang lang' t ∧
      is_adjective_of_quality_lang lang t = is_adjective_of_quality_lang lang' t :=
  ⟨rfl, rfl⟩

/-- C3: both word-class tables keep a counter entry exactly when its count is
strictly greater than the threshold — with the default thresholds, a
content-word lemma needs count > 3 and a descriptor lemma needs count > 1, so
a count equal to the threshold (for instance a descriptor occurring exactly
once) is excluded. -/
theorem c3_strict_threshold_inclusion (counter : List (String × Nat))
    (w : String) (c : Nat) (h : (w, c) ∈ counter) :
    ((w, c) ∈ tableEntries counter MIN_COUNT_NOUNS_N_VERBS ↔ 3 < c) ∧
      ((w, c) ∈ tableEntries counter MIN_COUNT_ADVS_N_ADJS ↔ 1 < c) := by
  constructor <;>
    simp [tableEntries, MIN_COUNT_NOUNS_N_VERBS, MIN_COUNT_ADVS_N_ADJS,
      List.mem_filter, h]

/-- C3 witness: in a counter holding a lemma counted 4 times and a lemma
counted once, the first passes the content-word threshold and the second
fails the descriptor threshold. -/
theorem c3_strict_threshold_inclusion_witness :
    (("casa", 4) ∈ tableEntries [("casa", 4), ("belo", 1)] MIN_COUNT_NOUNS_N_VERBS ↔ 3 < 4) ∧
      (("casa", 4) ∈ tableEntries [("casa", 4), ("belo", 1)] MIN_COUNT_ADVS_N_ADJS ↔ 1 < 4) :=
  c3_strict_threshold_inclusion [("casa", 4), ("belo", 1)] "casa" 4 (by decide)

/-- C4: the content-to-descriptor ratio is the exact quotient when the
descriptor count is positive, positive infinity when only the descriptor
count is zero, and zero when both counts are zero; the total function never
raises a division fault. -/
theorem c4_ratio_fallbacks (documents : List Doc) :
    (0 < (analyze_word_classes documents).2 →
        ratio_of documents =
          RatioValue.fin (((analyze_word_classes documents).1 : ℚ) /
            ((analyze_word_classes documents).2 : ℚ))) ∧
      ((analyze_word_classes documents).2 = 0 →
        0 < (analyze_word_classes documents).1 →
          ratio_of documents = RatioValue.posInf) ∧
      ((analyze_word_classes documents).2 = 0 →
        (analyze_word_classes documents).1 = 0 →
          ratio_of documents = RatioValue.fin 0) := by
  refine ⟨fun h => ?_, fun h h' => ?_, fun h h' => ?_⟩ <;>
    simp [ratio_of, ratio_nv_to_aa, h, *]

/-- C4 witness: a document with one content word and one descriptor yields the
finite quotient, one with a content word and no descriptor yields positive
infinity, and the empty corpus yields zero. -/
theorem c4_ratio_fallbacks_witness :
    ratio_of [docNVSample] =
        RatioValue.fin (((analyze_word_classes [docNVSample]).1 : ℚ) /
          ((analyze_word_classes [docNVSample]).2 : ℚ)) ∧
      ratio_of [docNounOnlySample] = RatioValue.posInf ∧
      ratio_of [] = RatioValue.fin 0 :=
  ⟨(c4_ratio_fallbacks [docNVSample]).1 (by decide),
   (c4_ratio_fallbacks [docNounOnlySample]).2.1 (by decide) (by decide),
   (c4_ratio_fallbacks []).2.2 (by decide) (by decide)⟩

/-- C8: the repeated-openings section lists exactly the counter entries whose
frequency is strictly greater than 2 (so a frequency of exactly 2 never
appears and a frequency of 3 always does), ordered by descending frequency. -/
theorem c8_repeated_openings_threshold (openings : List (String × Nat)) :
    (∀ k c, (k, c) ∈ repeated_openings_entries openings ↔
        ((k, c) ∈ openings ∧ 2 < c)) ∧
      (∀ k, k ∈ (repeated_openings_entries openings).map Prod.fst ↔
        ∃ c, (k, c) ∈ openings ∧ 2 < c) ∧
      List.Pairwise (fun a b : String × Nat => b.2 ≤ a.2)
        (repeated_openings_entries openings) := by
  haveI : IsTotal (String × Nat) (fun a b => b.2 ≤ a.2) :=
    ⟨fun a b => Nat.le_total b.2 a.2⟩
  haveI : IsTrans (String × Nat) (fun a b => b.2 ≤ a.2) :=
    ⟨fun _ _ _ hab hbc => Nat.le_trans hbc hab⟩
  have hsorted :
      List.Pairwise (fun a b : String × Nat => b.2 ≤ a.2)
        (openings.insertionSort (fun a b => b.2 ≤ a.2)) :=
    List.sorted_insertionSort _ openings
  refine ⟨fun k c => ?_, fun k => ?_, ?_⟩
  · simp [repeated_openings_entries, List.mem_filter]
  · simp only [repeated_openings_entries, List.mem_map, List.mem_filter,
      List.mem_insertionSort, decide_eq_true_eq]
    constructor
    · rintro ⟨⟨a, b⟩, ⟨hm, hc⟩, rfl⟩
      exact ⟨b, hm, hc⟩
    · rintro ⟨b, hm, hc⟩
      exact ⟨(k, b), ⟨hm, hc⟩, rfl⟩
  · exact List.Pairwise.filter _ hsorted

/-- C9: the degenerate-input guards of the sentence statistics: mean 0 with no
sentences, deviation 0 with fewer than two sentences (for any square-root
implementation), and percentage 0 whenever the mean is 0; each quantity is a
total function, so no arithmetic fault can be raised. -/
theorem c9_degenerate_statistics (sq : ℚ → ℚ) (documents : List Doc) :
    ((analyze_sentences documents).sentence_lengths = [] →
        avg_len documents = 0) ∧
      ((analyze_sentences documents).sentence_lengths.length < 2 →
        var_len sq documents = 0) ∧
      (avg_len documents = 0 → var_len_percentage sq documents = 0) := by
  refine ⟨fun h => ?_, fun h => ?_, fun h => ?_⟩
  · simp [avg_len, h]
  · have h2 : ¬ (analyze_sentences documents).sentence_lengths.length > 1 := by
      omega
    simp [var_len, h2]
  · simp [var_len_percentage, h]

/-- C9 witness: the empty corpus has mean 0, a single-sentence corpus has
deviation 0, and a zero mean forces a zero variation percentage. -/
theorem c9_degenerate_statistics_witness :
    avg_len [] = 0 ∧ var_len (fun q => q) [docNounOnlySample] = 0 ∧
      var_len_percentage (fun q => q) [] = 0 :=
  ⟨(c9_degenerate_statistics (fun q => q) []).1 (by decide),
   (c9_degenerate_statistics (fun q => q) [docNounOnlySample]).2.1 (by decide),
   (c9_degenerate_statistics (fun q => q) []).2.2
     ((c9_degenerate_statistics (fun q => q) []).1 (by decide))⟩

/-- Folding insertions of a list of keys into a finite set grows the
cardinality by at most the length of the list. -/
theorem foldl_insert_card_le (l : List String) (s : Finset String) :
    (l.foldl (fun acc x => insert x acc) s).card ≤ s.card + l.length := by
  induction l generalizing s with
  | nil => simp
  | cons x xs ih =>
    refine le_trans (ih (insert x s)) ?_
    have := Finset.card_insert_le x s
    simp only [List.length_cons]
    omega

/-- The sentence fold accumulates the total token count additively: each
sentence contributes the length of its punctuation/space-filtered tokens. -/
theorem analyze_foldl_total (l : List Sentence) (st : SentAnalysis) :
    (l.foldl analyze_step st).total_tokens =
      st.total_tokens + (l.map (fun s => (content_tokens s).length)).sum := by
  induction l generalizing st with
  | nil => simp
  | cons s ss ih =>
    simp only [List.foldl_cons, List.map_cons, List.sum_cons, ih]
    simp [analyze_step]
    omega

/-- The unique-lemma set grows by at most the filtered token count of each
sentence: only alphabetic filtered tokens insert a lemma. -/
theorem analyze_foldl_card (l : List Sentence) (st : SentAnalysis) :
    (l.foldl analyze_step st).unique_lemmas.card ≤
      st.unique_lemmas.card + (l.map (fun s => (content_tokens s).length)).sum := by
  induction l generalizing st with
  | nil => simp
  | cons s ss ih =>
    refine le_trans (ih (analyze_step st s)) ?_
    have hstep : (analyze_step st s).unique_lemmas.card ≤
        st.unique_lemmas.card + (content_tokens s).length := by
      refine le_trans (foldl_insert_card_le _ _) ?_
      have hle : ((content_tokens s).filter (fun t => t.is_alpha)).length ≤
          (content_tokens s).length := List.length_filter_le _ _
      simp only [analyze_step, List.length_map]
      omega
    simp only [List.map_cons, List.sum_cons]
    omega

/-- The corpus-wide unique-lemma count never exceeds the corpus total of
filtered tokens. -/
theorem unique_card_le_total (documents : List Doc) :
    (analyze_sentences documents).unique_lemmas.card ≤
      (analyze_sentences documents).total_tokens := by
  unfold analyze_sentences
  refine le_trans (analyze_foldl_card _ _) ?_
  rw [analyze_foldl_total]
  simp

/-- C5: lexical diversity always lies in the unit interval and equals 0 when
the total filtered-token count is 0; the accumulated unique-lemma set has at
most as many elements as the corpus token total. -/
theorem c5_lexical_diversity_bounds (documents : List Doc) :
    0 ≤ lexical_div documents ∧ lexical_div documents ≤ 1 ∧
      ((analyze_sentences documents).total_tokens = 0 →
        lexical_div documents = 0) ∧
      (analyze_sentences documents).unique_lemmas.card ≤
        (analyze_sentences documents).total_tokens := by
  have hcard := unique_card_le_total documents
  by_cases h : (analyze_sentences documents).total_tokens = 0
  · refine ⟨?_, ?_, fun _ => ?_, hcard⟩ <;> simp [lexical_div, h]
  · have hpos : 0 < ((analyze_sentences documents).total_tokens : ℚ) := by
      exact_mod_cast Nat.pos_of_ne_zero h
    refine ⟨?_, ?_, fun h0 => absurd h0 h, hcard⟩
    · simp only [lexical_div, h]
      positivity
    · simp only [lexical_div, h, if_true, ne_eq, not_false_eq_true, if_pos]
      rw [div_le_one hpos]
      exact_mod_cast hcard

/-- C5 witness: on the empty corpus the diversity is 0, inside the unit
interval, with a unique-lemma count of 0. -/
theorem c5_lexical_diversity_bounds_witness :
    0 ≤ lexical_div [] ∧ lexical_div [] ≤ 1 ∧
      ((analyze_sentences []).total_tokens = 0 → lexical_div [] = 0) ∧
      (analyze_sentences []).unique_lemmas.card ≤
        (analyze_sentences []).total_tokens :=
  c5_lexical_diversity_bounds []

/-- The sentence fold appends the trimmed text of exactly the sentences whose
filtered tokens contain a passive-subject dependency, in traversal order. -/
theorem analyze_foldl_passive (l : List Sentence) (st : SentAnalysis) :
    (l.foldl analyze_step st).passive_sentence_texts =
      st.passive_sentence_texts ++
        (l.filter (fun s => detect_passive_voice (content_tokens s))).map
          (fun s => s.text.trim) := by
  induction l generalizing st with
  | nil => simp
  | cons s ss ih =>
    by_cases h : detect_passive_voice (content_tokens s)
    · simp [List.foldl_cons, ih, analyze_step, h, List.filter_cons]
    · simp [List.foldl_cons, ih, analyze_step, h, List.filter_cons]

/-- C10: the passive-sentence list holds, in document-then-sentence order, the
trimmed text of each sentence having at least one filtered token with the
dependency "nsubjpass" — one entry per such sentence regardless of how many
tokens carry the relation, and no entry otherwise. -/
theorem c10_passive_sentence_list (documents : List Doc) :
    (analyze_sentences documents).passive_sentence_texts =
      ((documents.flatMap Doc.sents).filter
          (fun s => detect_passive_voice (content_tokens s))).map
        (fun s => s.text.trim) := by
  unfold analyze_sentences
  rw [analyze_foldl_passive]
  simp

/-- The passive-voice section is the empty string exactly when the passive
sentence list is empty: when rendered it starts with a non-empty header. -/
theorem passive_voice_block_empty_iff (texts : List String) :
    passive_voice_block texts = "" ↔ texts = [] := by
  unfold passive_voice_block
  by_cases h : texts = []
  · simp [h]
  · have hne : "Passive voice sentences:\n" ++
        String.join (texts.map (fun s => "    • " ++ s ++ "\n")) ++ "\n" ≠ "" := by
      intro hc
      have hlen := congrArg String.length hc
      rw [String.length_append, String.length_append] at hlen
      have h1 : ("Passive voice sentences:\n").length = 25 := by decide
      have h2 : ("" : String).length = 0 := rfl
      omega
    simp [h, hne]

/-- C1 (amended): `edit_fiction` renders, in fixed order, the stylistic
metrics block (always), the passive-voice list (non-empty input only), the
repeated-opening block (always, opened by its header), the content-word table
and the descriptor table; no readability block occurs in this report.  The
separate `compute_stylistic_metrics` of `metrics.py` — not called by
`edit_fiction` — renders the readability block in place of the
repeated-opening block. -/
theorem c1_report_section_order (sq : ℚ → ℚ)
    (scorer : String → Except String (List (String × ℚ × String)))
    (documents : List Doc) :
    (edit_fiction_report sq documents =
        stylistic_metrics_block sq documents ++
          passive_voice_block (analyze_sentences documents).passive_sentence_texts ++
          format_repeated_openings (analyze_sentences documents).openings ++
          format_word_counts_with_examples "Nouns and Verbs"
            (counter_of (process_lemmas documents ["NOUN", "VERB"]))
            (word_examples_of documents ["NOUN", "VERB"]) MIN_COUNT_NOUNS_N_VERBS ++
          format_word_counts_with_examples "Manner Adverbs and Quality Adjectives"
            (counter_of (descriptor_lemmas documents))
            (descriptor_examples documents) MIN_COUNT_ADVS_N_ADJS) ∧
      (passive_voice_block (analyze_sentences documents).passive_sentence_texts = "" ↔
        (analyze_sentences documents).passive_sentence_texts = []) ∧
      (∃ rest, format_repeated_openings (analyze_sentences documents).openings =
        "  Repeated sentence openings:\n" ++ rest) ∧
      (∃ rest, compute_stylistic_metrics sq scorer documents =
        metrics_stylistic_block sq documents ++
          passive_voice_block (analyze_sentences documents).passive_sentence_texts ++
          ("Readability Indices (ideal ranges in parentheses):\n" ++ rest)) := by
  refine ⟨?_, passive_voice_block_empty_iff _, ?_, ?_⟩
  · simp [edit_fiction_report, main_compute_stylistic_metrics, String.append_assoc]
  · exact ⟨String.join ((repeated_openings_entries
        (analyze_sentences documents).openings).map
          (fun p => "    " ++ p.1 ++ ": " ++ toString p.2 ++ "\n")) ++ "\n",
      by simp [format_repeated_openings, String.append_assoc]⟩
  · refine ⟨(match scorer (String.intercalate "\n" (documents.map Doc.text)) with
      | Except.ok rows =>
          String.join (rows.map (fun row =>
            "  " ++ row.1 ++ ": " ++ fmtFixed row.2.1 2 ++ " — ideal " ++ row.2.2 ++ "\n"))
      | Except.error e =>
          "  [!] Could not compute readability metrics: " ++ e ++ "\n") ++ "\n", ?_⟩
    simp [compute_stylistic_metrics, compute_readability_metrics, String.append_assoc]

set_option maxRecDepth 10000 in
/-- C1 counterexample: on the empty document list the report produced by
`edit_fiction` does not contain the readability block — its header string
"Readability" occurs nowhere in the output — refuting the claim that every
report contains both the repeated-opening block and the readability block. -/
theorem c1_no_readability_in_report :
    ¬ ("Readability".data <:+: (edit_fiction_report (fun _ => 0) []).data) := by
  decide
